import Mathlib

/- Verification of the forecasting path of `src/Functions/group01.py` (class
`Group01`): the method `predictor` (lines 653-751) together with the dataset
access it performs.  The dataset is a table of rows with columns `Entity`,
`Year` and `tfp`; the spec assumes it is already loaded before the core runs,
so the process state carries the loaded table (the `self.df is None:
get_data()` branch at lines 695-696 is outside the modelled state space).
Process state also carries the global warnings filter, which `predictor`
switches off at line 688. -/

/-- One row of the dataframe `self.df`: columns `Entity`, `Year`, `tfp`. -/
structure Row where
  entity : String
  year : Int
  tfp : ℚ
  deriving DecidableEq

/-- The process-level state the forecasting path touches: the global warnings
filter (`warnings.filterwarnings`) and the loaded dataframe `self.df`. -/
structure ProcState where
  warningsOn : Bool
  df : List Row
  deriving DecidableEq

/-- A scalar Python value that can be an element of the `countries` list.
`str` is a country-name candidate; `int` stands for every hashable non-string
scalar (each compares unequal to every string, so membership of it in the set
of known country names is `False`). -/
inductive PyElem where
  | str (s : String)
  | int (n : Int)
  deriving DecidableEq

/-- The dynamic value passed as the `countries` argument of `predictor`:
either a Python list of scalars, or a non-list value (a string, an int, or
`None`), for the `isinstance(countries, list)` check at line 690. -/
inductive PyArg where
  | pyList (xs : List PyElem)
  | str (s : String)
  | int (n : Int)
  | noneVal
  deriving DecidableEq

/-- The exceptions `predictor` can raise, lines 690-712 and the fitting call.
`typeError` is the spec's InvalidArgument (the `TypeError` of line 691);
`unknownCountries` is the `ValueError` of line 706, carrying the list of
known countries that its message interpolates (the Python message joins them
with a comma); `tooManyCountries` is the `ValueError` of line 712;
`insufficientData` is the fitting failure for a too-short series. -/
inductive PredictorError where
  | typeError (msg : String)
  | unknownCountries (known : List String)
  | tooManyCountries
  | insufficientData
  deriving DecidableEq

/-- What `predictor` hands the renderer for one country: the historical
(year, tfp) arrays plotted at line 723 and the forecast arrays plotted at
lines 730-736 (x = `np.arange(years[-1], years[-1] + 31)`,
y = `model_fit.forecast(steps=31)`). -/
structure ForecastResult where
  country : String
  histYears : List Int
  histTfp : List ℚ
  forecastYears : List Int
  forecastValues : List ℚ
  deriving DecidableEq

deriving instance DecidableEq for Except

/-- First-occurrence deduplication, the semantics of
`self.df["Entity"].unique()` (line 698).  Python then wraps the result in a
`set`, which only affects iteration order of the error message, not
membership. -/
def uniqueAcc (acc : List String) : List String → List String
  | [] => acc
  | x :: xs => if x ∈ acc then uniqueAcc acc xs else uniqueAcc (acc ++ [x]) xs

/-- Embeds `available_countries = set(self.df["Entity"].unique())` (line 698). -/
def availableCountries (df : List Row) : List String :=
  uniqueAcc [] (df.map (fun r => r.entity))

/-- One step of the comprehension at lines 701-703: keep `country` when
`country in available_countries`.  A non-string element is hashable but equal
to no string, so the membership test is `False` and it is dropped. -/
def keepCountry (known : List String) (e : PyElem) : Option String :=
  match e with
  | PyElem.str s => if s ∈ known then some s else none
  | PyElem.int _ => none

/-- Embeds `countries_to_use = [country for country in countries if country
in available_countries]` (lines 701-703), with the kept elements (all
strings) read back as strings. -/
def survivingNames (df : List Row) (cs : List PyElem) : List String :=
  cs.filterMap (keepCountry (availableCountries df))

/-- Embeds `data = self.df[self.df["Entity"] == country]` (line 718): row
order of the dataframe is preserved. -/
def countryRows (df : List Row) (c : String) : List Row :=
  df.filter (fun r => r.entity == c)

/-- Modelled from the spec: the numeric output of the external statsmodels
maximum-likelihood ARIMA(20,2,2) fit called at lines 725-728
(`ARIMA(tfp, order=(20, 2, 2)).fit().forecast(steps=31)`).  The library code
is not part of this repository; the spec pins down only what the claims here
need — the fit is deterministic (no random seeding) and `forecast(steps=31)`
returns exactly 31 values — so it is modelled as a pure function returning 31
values (a naive flat forecast; no claim concerns the numbers themselves). -/
def arimaForecast (tfp : List ℚ) : List ℚ :=
  List.replicate 31 (tfp.getLastD 0)

/-- Modelled from the spec: the minimum series length the ARIMA(20,2,2) fit
requires, "practically more than `p + d` observations" with p = 20, d = 2. -/
def minObservations : Nat := 23

/-- Lines 725-728: fit the ARIMA(20,2,2) model to the tfp values and forecast
31 steps.  Modelled from the spec on the failure side: a series with fewer
observations than the model requires fails with InsufficientData instead of
returning a forecast. -/
def forecastEngine (tfp : List ℚ) : Except PredictorError (List ℚ) :=
  if tfp.length < minObservations then Except.error PredictorError.insufficientData
  else Except.ok (arimaForecast tfp)

/-- The successful per-country result of the loop body, lines 716-736.  The
forecast x-axis is `np.arange(years[-1], years[-1] + 31)` (line 731): the 31
consecutive years starting AT the last historical year. -/
def mkResult (df : List Row) (c : String) : ForecastResult :=
  { country := c
    histYears := (countryRows df c).map (fun r => r.year)
    histTfp := (countryRows df c).map (fun r => r.tfp)
    forecastYears :=
      (List.range 31).map (fun i => ((countryRows df c).map (fun r => r.year)).getLastD 0 + (i : Int))
    forecastValues := arimaForecast ((countryRows df c).map (fun r => r.tfp)) }

/-- One iteration of the loop at lines 716-736 for one country: extract the
series, fit and forecast; a fitting exception propagates. -/
def forecastCountry (df : List Row) (c : String) : Except PredictorError ForecastResult :=
  match forecastEngine ((countryRows df c).map (fun r => r.tfp)) with
  | Except.error e => Except.error e
  | Except.ok _ => Except.ok (mkResult df c)

/-- The loop of lines 716-736 over `countries_to_use`: an exception raised for
one country aborts the whole call. -/
def forecastAll (df : List Row) : List String → Except PredictorError (List ForecastResult)
  | [] => Except.ok []
  | c :: cs =>
    match forecastCountry df c with
    | Except.error e => Except.error e
    | Except.ok r =>
      match forecastAll df cs with
      | Except.error e => Except.error e
      | Except.ok rs => Except.ok (r :: rs)

/-- The outcome of `predictor` as a function of the loaded dataframe and the
`countries` argument, following lines 690-736 in order: the
`isinstance(countries, list)` check, the filter to known countries, the
emptiness check (line 704), the `len(countries) > 3` check against the
ORIGINAL list (line 710), then the per-country loop. -/
def predictorResult (df : List Row) (countries : PyArg) :
    Except PredictorError (List ForecastResult) :=
  match countries with
  | PyArg.pyList cs =>
    if survivingNames df cs = [] then
      Except.error (PredictorError.unknownCountries (availableCountries df))
    else if 3 < cs.length then
      Except.error PredictorError.tooManyCountries
    else
      forecastAll df (survivingNames df cs)
  | _ =>
    Except.error (PredictorError.typeError
      "No valid type as an argument. Please insert the names of countries as a list into the method.")

/-- Embeds `Group01.predictor` (lines 653-751) as a state transformer: line 688
(`warnings.filterwarnings("ignore")`) turns the global warnings filter off
unconditionally, before any check runs and without later restoration; the
outcome then depends only on the loaded dataframe and the argument, and the
dataframe itself is never written. -/
def predictor (s : ProcState) (countries : PyArg) :
    ProcState × Except PredictorError (List ForecastResult) :=
  ({ s with warningsOn := false }, predictorResult s.df countries)

/-- Concrete dataframe for witnesses: 59 rows for France, years 1961-2019,
constant tfp (spec section 8, scenario 7). -/
def franceRows : List Row :=
  (List.range 59).map (fun i => { entity := "France", year := 1961 + (i : Int), tfp := 1 })

/-- Concrete process state for witnesses: warnings on, France data loaded. -/
def testState : ProcState := { warningsOn := true, df := franceRows }

/-- Projection of `predictor` to its returned value; the first component is
the post-call process state. -/
theorem predictor_snd (s : ProcState) (arg : PyArg) :
    (predictor s arg).2 = predictorResult s.df arg := rfl

/-- Unfolding of the list branch of `predictorResult`. -/
theorem predictorResult_pyList (df : List Row) (cs : List PyElem) :
    predictorResult df (PyArg.pyList cs) =
      if survivingNames df cs = [] then
        Except.error (PredictorError.unknownCountries (availableCountries df))
      else if 3 < cs.length then Except.error PredictorError.tooManyCountries
      else forecastAll df (survivingNames df cs) := rfl

/-- Membership in the first-occurrence deduplication. -/
theorem mem_uniqueAcc (xs : List String) : ∀ (acc : List String) (a : String),
    a ∈ uniqueAcc acc xs ↔ a ∈ acc ∨ a ∈ xs := by
  induction xs with
  | nil => intro acc a; simp [uniqueAcc]
  | cons x xs ih =>
    intro acc a
    by_cases hx : x ∈ acc <;>
      simp only [uniqueAcc, if_pos, if_neg, hx, ite_true, ite_false, ih,
        List.mem_append, List.mem_cons, List.mem_singleton]
    · constructor
      · rintro (h | h)
        · exact Or.inl h
        · exact Or.inr (Or.inr h)
      · rintro (h | h | h)
        · exact Or.inl h
        · exact Or.inl (h ▸ hx)
        · exact Or.inr h
    · tauto

/-- The known-country set enumerates exactly the entities appearing in the
dataframe. -/
theorem mem_availableCountries (df : List Row) (c : String) :
    c ∈ availableCountries df ↔ ∃ r ∈ df, r.entity = c := by
  unfold availableCountries
  rw [mem_uniqueAcc]
  simp [List.mem_map]

/-- A name survives the filter exactly when it occurs in the request as a
string and is a known country. -/
theorem mem_survivingNames (df : List Row) (cs : List PyElem) (c : String) :
    c ∈ survivingNames df cs ↔ PyElem.str c ∈ cs ∧ c ∈ availableCountries df := by
  unfold survivingNames
  rw [List.mem_filterMap]
  constructor
  · rintro ⟨e, he, hk⟩
    cases e with
    | str s =>
      simp only [keepCountry] at hk
      by_cases hs : s ∈ availableCountries df
      · rw [if_pos hs] at hk
        cases hk
        exact ⟨he, hs⟩
      · rw [if_neg hs] at hk
        exact Option.noConfusion hk
    | int n => exact Option.noConfusion hk
  · rintro ⟨he, hc⟩
    refine ⟨PyElem.str c, he, ?_⟩
    simp only [keepCountry]
    rw [if_pos hc]

/-- A request containing at least one known name yields a nonempty filtered
list. -/
theorem survivingNames_ne_nil (df : List Row) (cs : List PyElem)
    (h : ∃ e ∈ cs, (keepCountry (availableCountries df) e).isSome = true) :
    survivingNames df cs ≠ [] := by
  rcases h with ⟨e, he, hs⟩
  rcases Option.isSome_iff_exists.mp hs with ⟨s, hs2⟩
  exact List.ne_nil_of_mem (List.mem_filterMap.mpr ⟨e, he, hs2⟩)

/-- The engine either rejects the series as too short or forecasts. -/
theorem forecastEngine_cases (tfp : List ℚ) :
    forecastEngine tfp = Except.error PredictorError.insufficientData ∨
    forecastEngine tfp = Except.ok (arimaForecast tfp) := by
  unfold forecastEngine
  by_cases h : tfp.length < minObservations
  · rw [if_pos h]; exact Or.inl rfl
  · rw [if_neg h]; exact Or.inr rfl

/-- With enough observations the loop body succeeds with the plotted record. -/
theorem forecastCountry_ok (df : List Row) (c : String)
    (h : minObservations ≤ (countryRows df c).length) :
    forecastCountry df c = Except.ok (mkResult df c) := by
  unfold forecastCountry forecastEngine
  rw [List.length_map, if_neg (Nat.not_lt.mpr h)]

/-- With enough observations for every surviving country, the loop returns
the records in the surviving order. -/
theorem forecastAll_ok (df : List Row) (names : List String) :
    (∀ c ∈ names, minObservations ≤ (countryRows df c).length) →
    forecastAll df names = Except.ok (names.map (mkResult df)) := by
  induction names with
  | nil => intro _; rfl
  | cons c cs ih =>
    intro h
    have hc := h c (List.mem_cons_self c cs)
    have hrest := ih (fun x hx => h x (List.mem_cons_of_mem _ hx))
    simp only [forecastAll, forecastCountry_ok df c hc, hrest, List.map_cons]

/-- The per-country loop never raises the argument-type error. -/
theorem forecastAll_not_typeError (df : List Row) (m : String) :
    ∀ names, forecastAll df names ≠ Except.error (PredictorError.typeError m) := by
  intro names
  induction names with
  | nil => intro h; exact Except.noConfusion h
  | cons c cs ih =>
    intro h
    unfold forecastAll at h
    cases hc : forecastCountry df c with
    | error e =>
      rw [hc] at h
      have he : e = PredictorError.typeError m := Except.error.inj h
      subst he
      unfold forecastCountry at hc
      rcases forecastEngine_cases ((countryRows df c).map (fun r => r.tfp)) with hfe | hfe <;>
        rw [hfe] at hc
      · exact PredictorError.noConfusion (Except.error.inj hc)
      · exact Except.noConfusion hc
    | ok r =>
      rw [hc] at h
      cases hall : forecastAll df cs with
      | error e =>
        rw [hall] at h
        have he : e = PredictorError.typeError m := Except.error.inj h
        subst he
        exact ih hall
      | ok rs =>
        rw [hall] at h
        exact Except.noConfusion h

/-- C1: the claim says the forecast periods start at `last_historical_year +
1` (2020 through 2050 for a series ending 2019).  The method's own docstring
says it predicts "until the year 2050", but line 731 pairs the 31 forecasts
with `np.arange(years[-1], years[-1] + 31)`: for the France series ending
2019 the forecast sequence does have exactly 31 strictly increasing
consecutive periods, but they start AT the last historical year 2019 (not
2020) and end at 2049 (not 2050). -/
theorem forecast_periods_start_at_last_year :
    ∃ r, (predictor testState (PyArg.pyList [PyElem.str "France"])).2 = Except.ok [r] ∧
      r.histYears.getLast? = some 2019 ∧
      r.forecastYears.length = 31 ∧
      r.forecastYears = (List.range 31).map (fun i => 2019 + (i : Int)) ∧
      r.forecastYears.head? = some 2019 ∧
      r.forecastYears.head? ≠ some 2020 ∧
      r.forecastYears.getLast? = some 2049 :=
  ⟨mkResult franceRows "France", by decide, by decide, by decide, by decide,
    by decide, by decide, by decide⟩

/-- C2 counterexample: a list of four names, all unknown, makes `predictor`
raise the UnknownCountries error (line 706), not TooManyCountries, because
the emptiness check at line 704 runs before the length check at line 710. -/
theorem four_unknown_not_tooMany :
    (predictor testState (PyArg.pyList
        [PyElem.str "Atlantis", PyElem.str "Mordor",
         PyElem.str "Narnia", PyElem.str "Gondor"])).2
      = Except.error (PredictorError.unknownCountries ["France"]) ∧
    Except.error (PredictorError.unknownCountries ["France"]) ≠
      (Except.error PredictorError.tooManyCountries :
        Except PredictorError (List ForecastResult)) :=
  ⟨by decide, by decide⟩

/-- C2 amended: a list of four or more names fails with TooManyCountries
provided at least one name is known; when every name is unknown the
UnknownCountries check fires first instead. -/
theorem tooMany_when_some_known (w : Bool) (df : List Row) (cs : List PyElem)
    (hlen : 3 < cs.length)
    (hknown : ∃ e ∈ cs, (keepCountry (availableCountries df) e).isSome = true) :
    (predictor ⟨w, df⟩ (PyArg.pyList cs)).2 = Except.error PredictorError.tooManyCountries := by
  have hne := survivingNames_ne_nil df cs hknown
  rw [predictor_snd, predictorResult_pyList, if_neg hne, if_pos hlen]

/-- C2 amended, witness: four names of which one ("France") is known. -/
theorem tooMany_when_some_known_witness :
    (3 < ([PyElem.str "France", PyElem.str "Mordor",
           PyElem.str "Narnia", PyElem.str "Gondor"] : List PyElem).length) ∧
    (∃ e ∈ [PyElem.str "France", PyElem.str "Mordor",
            PyElem.str "Narnia", PyElem.str "Gondor"],
       (keepCountry (availableCountries franceRows) e).isSome = true) ∧
    (predictor ⟨true, franceRows⟩ (PyArg.pyList
        [PyElem.str "France", PyElem.str "Mordor",
         PyElem.str "Narnia", PyElem.str "Gondor"])).2
      = Except.error PredictorError.tooManyCountries :=
  ⟨by decide, by decide,
    tooMany_when_some_known true franceRows _ (by decide) (by decide)⟩

/-- C3: the TooManyCountries limit is checked against the original pre-filter
list length.  For any request containing at least one known name: if the
original length exceeds 3 the call fails with TooManyCountries (however few
names survive filtering), and if the original length is at most 3 the call
succeeds (given each surviving country's series meets the model's minimum
observation count, the spec's InsufficientData proviso). -/
theorem limit_checked_prefilter (w : Bool) (df : List Row) (cs : List PyElem)
    (hknown : ∃ e ∈ cs, (keepCountry (availableCountries df) e).isSome = true) :
    (3 < cs.length →
       (predictor ⟨w, df⟩ (PyArg.pyList cs)).2 =
         Except.error PredictorError.tooManyCountries) ∧
    (cs.length ≤ 3 →
       (∀ c ∈ survivingNames df cs, minObservations ≤ (countryRows df c).length) →
       (predictor ⟨w, df⟩ (PyArg.pyList cs)).2 =
         Except.ok ((survivingNames df cs).map (mkResult df))) := by
  have hne := survivingNames_ne_nil df cs hknown
  constructor
  · intro hlen
    rw [predictor_snd, predictorResult_pyList, if_neg hne, if_pos hlen]
  · intro hlen hdata
    rw [predictor_snd, predictorResult_pyList, if_neg hne,
      if_neg (Nat.not_lt.mpr hlen), forecastAll_ok df _ hdata]

/-- C3 witness: the spec's concrete scenario `["France", "Atlantis"]` —
pre-filter count 2, one known name — succeeds with France's result. -/
theorem limit_checked_prefilter_witness :
    (∃ e ∈ [PyElem.str "France", PyElem.str "Atlantis"],
       (keepCountry (availableCountries franceRows) e).isSome = true) ∧
    (([PyElem.str "France", PyElem.str "Atlantis"] : List PyElem).length ≤ 3) ∧
    (predictor ⟨true, franceRows⟩ (PyArg.pyList
        [PyElem.str "France", PyElem.str "Atlantis"])).2
      = Except.ok ((survivingNames franceRows
          [PyElem.str "France", PyElem.str "Atlantis"]).map (mkResult franceRows)) :=
  ⟨by decide, by decide,
    (limit_checked_prefilter true franceRows _ (by decide)).2 (by decide) (by decide)⟩

/-- C4 counterexample: the list `[42]` is a sequence containing a non-string
element, yet `predictor` does not raise the argument-type error — the
element is filtered out (line 701-703) and the call fails with
UnknownCountries instead.  Only `isinstance(countries, list)` is checked
(line 690); element types never are. -/
theorem int_element_not_invalidArgument :
    (predictor testState (PyArg.pyList [PyElem.int 42])).2 =
      Except.error (PredictorError.unknownCountries ["France"]) ∧
    ¬ ∃ m, (predictor testState (PyArg.pyList [PyElem.int 42])).2 =
      Except.error (PredictorError.typeError m) := by
  have h1 : (predictor testState (PyArg.pyList [PyElem.int 42])).2 =
      Except.error (PredictorError.unknownCountries ["France"]) := by decide
  refine ⟨h1, ?_⟩
  rintro ⟨m, h⟩
  rw [h1] at h
  exact PredictorError.noConfusion (Except.error.inj h)

/-- C4 amended: `predictor` raises the argument-type error (InvalidArgument)
exactly when the `countries` argument is not a Python list; the elements of a
list are never type-checked — non-string elements are silently dropped by the
known-country filter like unknown names. -/
theorem typeError_iff_not_list (s : ProcState) (arg : PyArg) :
    (∃ m, (predictor s arg).2 = Except.error (PredictorError.typeError m)) ↔
      ∀ xs, arg ≠ PyArg.pyList xs := by
  cases arg with
  | pyList xs =>
    constructor
    · rintro ⟨m, h⟩
      exfalso
      rw [predictor_snd, predictorResult_pyList] at h
      by_cases h1 : survivingNames s.df xs = []
      · rw [if_pos h1] at h
        exact PredictorError.noConfusion (Except.error.inj h)
      · rw [if_neg h1] at h
        by_cases h2 : 3 < xs.length
        · rw [if_pos h2] at h
          exact PredictorError.noConfusion (Except.error.inj h)
        · rw [if_neg h2] at h
          exact forecastAll_not_typeError s.df m _ h
    · intro hcontra
      exact absurd rfl (hcontra xs)
  | str t => exact ⟨fun _ xs h => PyArg.noConfusion h, fun _ => ⟨_, rfl⟩⟩
  | int n => exact ⟨fun _ xs h => PyArg.noConfusion h, fun _ => ⟨_, rfl⟩⟩
  | noneVal => exact ⟨fun _ xs h => PyArg.noConfusion h, fun _ => ⟨_, rfl⟩⟩

/-- C5: a series with fewer observations than the ARIMA(20,2,2) model
requires makes the Forecast Engine fail with InsufficientData; it never
returns a (degraded) forecast.  The fitting procedure itself is external
library code, modelled from the spec (see `forecastEngine`). -/
theorem short_series_insufficientData (tfp : List ℚ)
    (h : tfp.length < minObservations) :
    forecastEngine tfp = Except.error PredictorError.insufficientData ∧
    ∀ preds, forecastEngine tfp ≠ Except.ok preds := by
  have h1 : forecastEngine tfp = Except.error PredictorError.insufficientData := by
    unfold forecastEngine
    rw [if_pos h]
  refine ⟨h1, fun preds hp => ?_⟩
  rw [h1] at hp
  exact Except.noConfusion hp

/-- C5 witness: a constant series of 5 observations is rejected. -/
theorem short_series_insufficientData_witness :
    (List.replicate 5 (1 : ℚ)).length < minObservations ∧
    forecastEngine (List.replicate 5 (1 : ℚ)) =
      Except.error PredictorError.insufficientData :=
  ⟨by decide, (short_series_insufficientData (List.replicate 5 1) (by decide)).1⟩

/-- C6: a request of at most 3 names mixing known and unknown ones succeeds
and returns results exactly for the known names, in the order they appear in
the request (given each surviving country's series meets the model's minimum
observation count, the spec's InsufficientData proviso).  `survivingNames` is
the order-preserving filter of the request, and membership in it is exactly
"occurs in the request as a string and is a known country". -/
theorem mixed_list_keeps_known_in_order (w : Bool) (df : List Row) (cs : List PyElem)
    (hlen : cs.length ≤ 3)
    (hknown : ∃ e ∈ cs, (keepCountry (availableCountries df) e).isSome = true)
    (hdata : ∀ c ∈ survivingNames df cs, minObservations ≤ (countryRows df c).length) :
    ∃ rs, (predictor ⟨w, df⟩ (PyArg.pyList cs)).2 = Except.ok rs ∧
      rs.map (fun r => r.country) = survivingNames df cs ∧
      rs = (survivingNames df cs).map (mkResult df) ∧
      (∀ c : String, c ∈ survivingNames df cs ↔
        PyElem.str c ∈ cs ∧ c ∈ availableCountries df) := by
  refine ⟨(survivingNames df cs).map (mkResult df), ?_, ?_, rfl,
    fun c => mem_survivingNames df cs c⟩
  · have hne := survivingNames_ne_nil df cs hknown
    rw [predictor_snd, predictorResult_pyList, if_neg hne,
      if_neg (Nat.not_lt.mpr hlen), forecastAll_ok df _ hdata]
  · rw [List.map_map]
    exact List.map_id _

/-- C6 witness: the mixed request `[42, "France"]` (one unknown non-string
element, one known name) returns exactly France's result. -/
theorem mixed_list_keeps_known_in_order_witness :
    (([PyElem.int 42, PyElem.str "France"] : List PyElem).length ≤ 3) ∧
    (∃ e ∈ [PyElem.int 42, PyElem.str "France"],
       (keepCountry (availableCountries franceRows) e).isSome = true) ∧
    (∀ c ∈ survivingNames franceRows [PyElem.int 42, PyElem.str "France"],
       minObservations ≤ (countryRows franceRows c).length) ∧
    (∃ rs, (predictor ⟨true, franceRows⟩ (PyArg.pyList
        [PyElem.int 42, PyElem.str "France"])).2 = Except.ok rs ∧
      rs.map (fun r => r.country) =
        survivingNames franceRows [PyElem.int 42, PyElem.str "France"] ∧
      rs = (survivingNames franceRows [PyElem.int 42, PyElem.str "France"]).map
        (mkResult franceRows) ∧
      (∀ c : String, c ∈ survivingNames franceRows [PyElem.int 42, PyElem.str "France"] ↔
        PyElem.str c ∈ [PyElem.int 42, PyElem.str "France"] ∧
        c ∈ availableCountries franceRows)) :=
  ⟨by decide, by decide, by decide,
    mixed_list_keeps_known_in_order true franceRows _ (by decide) (by decide) (by decide)⟩

/-- C7: when no requested name is known, `predictor` fails with
UnknownCountries carrying the known-country list (whose join the Python
message interpolates, line 707), and that list enumerates exactly the
countries appearing in the dataframe. -/
theorem all_unknown_reports_known (w : Bool) (df : List Row) (cs : List PyElem)
    (h : ∀ e ∈ cs, keepCountry (availableCountries df) e = none) :
    (predictor ⟨w, df⟩ (PyArg.pyList cs)).2 =
      Except.error (PredictorError.unknownCountries (availableCountries df)) ∧
    (∀ c : String, c ∈ availableCountries df ↔ ∃ r ∈ df, r.entity = c) := by
  constructor
  · have hnil : survivingNames df cs = [] := List.filterMap_eq_nil_iff.mpr h
    rw [predictor_snd, predictorResult_pyList, if_pos hnil]
  · exact fun c => mem_availableCountries df c

/-- C7 witness: the all-unknown request `["Atlantis", 3]`. -/
theorem all_unknown_reports_known_witness :
    (∀ e ∈ [PyElem.str "Atlantis", PyElem.int 3],
       keepCountry (availableCountries franceRows) e = none) ∧
    ((predictor ⟨true, franceRows⟩ (PyArg.pyList
        [PyElem.str "Atlantis", PyElem.int 3])).2 =
      Except.error (PredictorError.unknownCountries (availableCountries franceRows)) ∧
     (∀ c : String, c ∈ availableCountries franceRows ↔
        ∃ r ∈ franceRows, r.entity = c)) :=
  ⟨by decide, all_unknown_reports_known true franceRows _ (by decide)⟩

/-- C8: the forecasting call is deterministic — running `predictor` a second
time from the post-state of a first identical call returns an identical
outcome (in particular identical 31-value forecast sequences).  The fit
itself is embedded as a pure function, per the spec's "deterministic fitting,
no random seeding"; the theorem shows the outcome also survives the one piece
of process state the call does change (the warnings filter). -/
theorem predictor_deterministic (s : ProcState) (arg : PyArg) :
    (predictor ((predictor s arg).1) arg).2 = (predictor s arg).2 := rfl

/-- C9: the forecasting path never mutates the loaded dataframe — the
post-call state carries the same table as the pre-call state, whatever the
argument and whether the outcome is a success or an error. -/
theorem predictor_preserves_df (s : ProcState) (arg : PyArg) :
    ((predictor s arg).1).df = s.df := rfl

/-- C10: every call to `predictor` — including calls failing validation —
switches the process-wide warnings filter off (line 688 runs before any
check), and the post-call state never has it restored. -/
theorem predictor_disables_warnings (s : ProcState) (arg : PyArg) :
    ((predictor s arg).1).warningsOn = false := rfl
